import Mathlib

/-!
# Verification of the grafana-agent-analyzer specification

Shallow embedding of the repository's upload form handler
(`src/components/ScreenshotUploader.jsx`) and of the backend screenshot
analysis pipeline (region detection, field parsing, widget classification,
overlap resolution, analysis engine).  The backend Python modules
(`multi_widget_detector.py`, `llm_analysis.py`, `main.py`) are not present in
the repository snapshot — only the backend README, sample reports and the
React frontend are — so the pipeline components are modelled from the
specification's component contracts, while the uploader is embedded directly
from the JSX source.
-/

/-! ## Uploader (`ScreenshotUploader.jsx`)

The React component keeps five pieces of state: `infraFile`, `systemFile`
(both `useState(null)`), `customDate` (initialised to
`new Date().toISOString().split('T')[0]`, i.e. the current date as
`YYYY-MM-DD`), `isUploading` (`false`) and `uploadStatus` (`''`).  Files are
modelled by their names; `Option` models JavaScript `null`. -/

structure UploaderState where
  infraFile : Option String
  systemFile : Option String
  customDate : String
  isUploading : Bool
  uploadStatus : String
  deriving Repr, DecidableEq

/-- Initial component state; `today` stands for
`new Date().toISOString().split('T')[0]`. -/
def initUploaderState (today : String) : UploaderState :=
  { infraFile := none
    systemFile := none
    customDate := today
    isUploading := false
    uploadStatus := "" }

/-- The multipart form data appended in `handleSubmit`: fields
`infra_screenshot`, `system_screenshot` and `date`. -/
structure UploadRequest where
  infra_screenshot : String
  system_screenshot : String
  date : String
  deriving Repr, DecidableEq

/-- Outcome of `fetch('http://localhost:8000/upload/')`: the response is ok,
the response is not ok and carries an optional `detail` string in its JSON
body, or the fetch throws with an error message. -/
inductive FetchResult where
  | ok : FetchResult
  | httpError : Option String → FetchResult
  | thrown : String → FetchResult
  deriving Repr, DecidableEq

/-- Embedding of `handleSubmit` (ScreenshotUploader.jsx lines 21–61).
`fetchResult` is what the network call would return were it issued; `today`
is the current date used when the form date is reset after a successful
upload.  Returns the post-handler component state together with the request
that was sent over the network, `none` when the handler returned before
fetching. -/
def handleSubmit (s : UploaderState) (today : String) (fetchResult : FetchResult) :
    UploaderState × Option UploadRequest :=
  match s.infraFile, s.systemFile with
  | some infra, some system =>
    let req : UploadRequest :=
      { infra_screenshot := infra, system_screenshot := system, date := s.customDate }
    let s1 := { s with isUploading := true, uploadStatus := "Uploading..." }
    let s2 :=
      match fetchResult with
      | .ok =>
        { s1 with uploadStatus := "Screenshots uploaded successfully!"
                  infraFile := none
                  systemFile := none
                  customDate := today }
      | .httpError detail =>
        { s1 with uploadStatus := "Upload failed: " ++ detail.getD "Unknown error" }
      | .thrown msg =>
        { s1 with uploadStatus := "Upload failed: " ++ msg }
    ({ s2 with isUploading := false }, some req)
  | _, _ =>
    ({ s with uploadStatus := "Please select both Infrastructure and System screenshots" },
      none)

/-- C1: With the infrastructure or the system file unselected, the submit
handler sets the status message to the required text and returns before any
network request; all other state fields are untouched. -/
theorem missing_file_rejected_before_fetch
    (s : UploaderState) (today : String) (r : FetchResult)
    (h : s.infraFile = none ∨ s.systemFile = none) :
    (handleSubmit s today r).1 =
      { s with uploadStatus := "Please select both Infrastructure and System screenshots" } ∧
    (handleSubmit s today r).2 = none := by
  rcases h with h | h <;>
    rcases hs : s.infraFile with _ | a <;>
    rcases ht : s.systemFile with _ | b <;>
    simp_all [handleSubmit]

/-- Witness for C1 at a concrete state with only the system file selected. -/
theorem missing_file_rejected_before_fetch_witness :
    (handleSubmit
        { infraFile := none, systemFile := some "sys.png", customDate := "2025-07-22",
          isUploading := false, uploadStatus := "" } "2025-07-22" .ok).1 =
      { infraFile := none, systemFile := some "sys.png", customDate := "2025-07-22",
        isUploading := false,
        uploadStatus := "Please select both Infrastructure and System screenshots" } ∧
    (handleSubmit
        { infraFile := none, systemFile := some "sys.png", customDate := "2025-07-22",
          isUploading := false, uploadStatus := "" } "2025-07-22" .ok).2 = none :=
  missing_file_rejected_before_fetch _ "2025-07-22" .ok (Or.inl rfl)

/-- C2: The date state is initialised to the current date, and every request
the handler builds carries a `date` field equal to the date state; in
particular a request built from an uneditted date carries the current date. -/
theorem date_always_sent
    (s : UploaderState) (today now : String) (r : FetchResult) (req : UploadRequest)
    (hreq : (handleSubmit s today r).2 = some req) :
    (initUploaderState now).customDate = now ∧ req.date = s.customDate := by
  refine ⟨rfl, ?_⟩
  rcases hs : s.infraFile with _ | a
  all_goals rcases ht : s.systemFile with _ | b
  all_goals simp_all [handleSubmit]
  subst hreq
  rfl

/-- Witness for C2: a concrete submission with both files selected sends the
(never-editted) initial date. -/
theorem date_always_sent_witness :
    (handleSubmit
        { initUploaderState "2025-07-22" with
          infraFile := some "infra.png", systemFile := some "sys.png" }
        "2025-07-23" .ok).2 =
      some { infra_screenshot := "infra.png", system_screenshot := "sys.png",
             date := "2025-07-22" } ∧
    ({ infra_screenshot := "infra.png", system_screenshot := "sys.png",
       date := "2025-07-22" } : UploadRequest).date = "2025-07-22" := by
  exact ⟨rfl,
    (date_always_sent
      { initUploaderState "2025-07-22" with
        infraFile := some "infra.png", systemFile := some "sys.png" }
      "2025-07-23" "2025-07-22" .ok _ rfl).2⟩

/-- C10: On a failed upload (non-ok response or thrown fetch) the selected
files and the date are unchanged and `isUploading` is back to `false`; only
the status message differs.  The form is reset (files cleared, date back to
today) exactly on an ok response. -/
theorem failed_upload_preserves_form
    (s : UploaderState) (today : String) (r : FetchResult)
    (a b : String) (ha : s.infraFile = some a) (hb : s.systemFile = some b) :
    (r ≠ .ok →
      ((handleSubmit s today r).1.infraFile = s.infraFile ∧
       (handleSubmit s today r).1.systemFile = s.systemFile ∧
       (handleSubmit s today r).1.customDate = s.customDate ∧
       (handleSubmit s today r).1.isUploading = false)) ∧
    (r = .ok →
      ((handleSubmit s today r).1.infraFile = none ∧
       (handleSubmit s today r).1.systemFile = none ∧
       (handleSubmit s today r).1.customDate = today ∧
       (handleSubmit s today r).1.isUploading = false)) := by
  rcases r with _ | detail | msg <;> simp_all [handleSubmit]

/-- Witness for C10 at a concrete failing upload (server responds 422). -/
theorem failed_upload_preserves_form_witness :
    (handleSubmit
        { infraFile := some "infra.png", systemFile := some "sys.png",
          customDate := "2025-07-22", isUploading := false, uploadStatus := "" }
        "2025-07-23" (.httpError (some "Invalid image"))).1.infraFile = some "infra.png" ∧
    (handleSubmit
        { infraFile := some "infra.png", systemFile := some "sys.png",
          customDate := "2025-07-22", isUploading := false, uploadStatus := "" }
        "2025-07-23" (.httpError (some "Invalid image"))).1.customDate = "2025-07-22" :=
  let h := failed_upload_preserves_form
    { infraFile := some "infra.png", systemFile := some "sys.png",
      customDate := "2025-07-22", isUploading := false, uploadStatus := "" }
    "2025-07-23" (.httpError (some "Invalid image")) "infra.png" "sys.png" rfl rfl
  ⟨(h.1 (by simp)).1, (h.1 (by simp)).2.2.1⟩

/-! ## Backend pipeline

The backend modules (`multi_widget_detector.py`, `llm_analysis.py`,
`main.py`) are not included in the repository snapshot; the definitions below
are modelled from the specification's component contracts (§4.1–§4.6) and the
tuning constants documented in the backend README (`min_area = 3000`,
`overlap_threshold = 0.5`, OCR confidence threshold 30).

All text processing is done on `List Char` with structural recursion so that
every definition evaluates by kernel reduction. -/

/-- Splits a character list at every separator accepted by `p`; separators
are dropped, empty groups are kept. -/
def splitList (p : Char → Bool) : List Char → List (List Char)
  | [] => [[]]
  | c :: cs =>
    let r := splitList p cs
    if p c then [] :: r
    else
      match r with
      | [] => [[c]]
      | g :: gs => (c :: g) :: gs

/-- Whitespace used to separate the tokens of a recognized text block. -/
def isSpaceChar (c : Char) : Bool :=
  c == ' ' || c == '\n' || c == '\t' || c == '\r'

/-- Whitespace-separated non-empty tokens of a raw text string. -/
def tokenize (s : String) : List (List Char) :=
  (splitList isSpaceChar s.data).filter (fun t => !t.isEmpty)

/-- `isPrefixL p l` holds when `p` is a prefix of `l`. -/
def isPrefixL : List Char → List Char → Bool
  | [], _ => true
  | _ :: _, [] => false
  | a :: as, b :: bs => a == b && isPrefixL as bs

/-- `containsSub p l` holds when `p` occurs contiguously inside `l`. -/
def containsSub (pat : List Char) : List Char → Bool
  | [] => isPrefixL pat []
  | c :: cs => isPrefixL pat (c :: cs) || containsSub pat cs

/-- `isSuffixL p l` holds when `p` is a suffix of `l`. -/
def isSuffixL (pat l : List Char) : Bool :=
  isPrefixL pat.reverse l.reverse

/-- Case folding, character by character. -/
def lowerStr (s : String) : List Char :=
  s.data.map Char.toLower

/-- Value of a non-empty digit string. -/
def digitsToNat (cs : List Char) : Nat :=
  cs.foldl (fun n c => 10 * n + (c.toNat - 48)) 0

/-- Parses a non-empty all-digit character list; anything else is `none`. -/
def parseDigits (cs : List Char) : Option Nat :=
  if !cs.isEmpty && cs.all Char.isDigit then some (digitsToNat cs) else none

/-- Modelled from the spec: a parsed decimal magnitude, kept exact as
`mantissa / 10 ^ decimals` (e.g. `92.9` is `⟨929, 1⟩`).  Stands in for the
float produced by the missing `multi_widget_detector.py` field parser. -/
structure NumberVal where
  mantissa : Nat
  decimals : Nat
  deriving DecidableEq, Repr

/-- Modelled from the spec (§4.3): numeric-token parsing tolerating
thousands separators (commas dropped) and one decimal point.  A token that
is not of the form `digits` or `digits.digits` (after dropping commas)
yields `none`, never an error. -/
def parseNumber (t : List Char) : Option NumberVal :=
  let cs := t.filter (fun c => c != ',')
  match splitList (fun c => c == '.') cs with
  | [w] => (parseDigits w).map (fun n => ⟨n, 0⟩)
  | [w, f] =>
    match parseDigits w, parseDigits f with
    | some a, some b => some ⟨a * 10 ^ f.length + b, f.length⟩
    | _, _ => none
  | _ => none

/-- The unit suffixes named by the spec (§4.3). -/
def unitSuffixes : List (List Char) :=
  ["MB/s".data, "Mbps".data, "GB".data, "ms".data, "%".data]

/-- Splits a recognized unit suffix off a token; the unit is stored
separately from the magnitude. -/
def splitUnit (t : List Char) : List Char × Option (List Char) :=
  match unitSuffixes.find? (fun u => isSuffixL u t) with
  | some u => (t.take (t.length - u.length), some u)
  | none => (t, none)

/-- Modelled from the spec (§4.3): a value token is a numeric token
optionally followed by a unit suffix. -/
def parseValueToken (t : List Char) : Option (NumberVal × Option String) :=
  let p := splitUnit t
  (parseNumber p.1).map (fun n => (n, p.2.map (fun cs => ⟨cs⟩)))

/-- Modelled from the spec (§4.3): a range token is two numbers separated by
`/` (each optionally carrying a unit suffix, as in `10.0%/95.0%`). -/
def parseRangeToken (t : List Char) : Option (NumberVal × NumberVal) :=
  match splitList (fun c => c == '/') t with
  | [a, b] =>
    match parseValueToken a, parseValueToken b with
    | some (x, _), some (y, _) => some (x, y)
    | _, _ => none
  | _ => none

/-- First value token of a raw text block, if any. -/
def firstValue (s : String) : Option (NumberVal × Option String) :=
  (tokenize s).findSome? parseValueToken

/-- First `min/max` range token of a raw text block, if any. -/
def firstRange (s : String) : Option (NumberVal × NumberVal) :=
  (tokenize s).findSome? parseRangeToken

/-- Trend enumeration from the data model (§3). -/
inductive Trend where
  | Rising | Falling | Spiking | Stable | Normal | Unknown
  deriving DecidableEq, Repr

/-- Status enumeration from the data model (§3). -/
inductive Status where
  | Info | Warning | Critical
  deriving DecidableEq, Repr

/-- The fixed trend vocabulary of the spec (§4.3). -/
def trendVocab : List (List Char × Trend) :=
  [("rising".data, .Rising), ("falling".data, .Falling), ("spiking".data, .Spiking),
   ("stable".data, .Stable), ("normal".data, .Normal)]

/-- Modelled from the spec (§4.3): case-insensitive match of the raw text
against the fixed trend vocabulary; unmatched text yields `Unknown`. -/
def parseTrend (s : String) : Trend :=
  match trendVocab.find? (fun p => containsSub p.1 (lowerStr s)) with
  | some p => p.2
  | none => .Unknown

/-- Modelled from the spec (§4.4): the ordered category rule table of the
missing `multi_widget_detector.py`, as an ordered list of
(keyword-set, category) pairs. -/
def categoryRules : List (List (List Char) × String) :=
  [ (["cpu".data, "load".data], "Infrastructure"),
    (["disk".data, "storage".data, "io".data], "Storage"),
    (["network".data, "tcp".data, "mbps".data], "Network"),
    (["connection".data, "db".data, "query".data, "lock".data, "cache".data], "Database"),
    (["queue".data, "session".data, "worker".data, "upload".data], "Application"),
    (["pod".data, "container".data, "node".data], "Container"),
    (["log".data, "alert".data, "backup".data, "ssl".data, "cert".data],
      "Observability/Security") ]

/-- The fixed closed category set (§3, §4.4): the rule-table categories plus
the `System` default. -/
def closedCategorySet : List String :=
  ["Infrastructure", "Storage", "Network", "Database", "Application", "Container",
   "Observability/Security", "System"]

/-- A rule matches when one of its keywords occurs (case-insensitively) in
the raw text. -/
def ruleMatches (text : String) (rule : List (List Char) × String) : Bool :=
  rule.1.any (fun kw => containsSub kw (lowerStr text))

/-- Modelled from the spec (§4.4): first matching rule wins; no match yields
`name="Unknown Widget", category="System"`.  On a match the name is derived
from the raw text (modelled as the raw text itself). -/
def classify (text : String) : String × String :=
  match categoryRules.find? (ruleMatches text) with
  | some rule => (text, rule.2)
  | none => ("Unknown Widget", "System")

/-- The finalized unit of meaning (§3). -/
structure Widget where
  name : String
  category : String
  current_value : Option NumberVal
  unit : Option String
  min : Option NumberVal
  max : Option NumberVal
  trend : Trend
  status : Status
  deriving DecidableEq, Repr

/-- Modelled from the spec (§4.3–§4.4): the Field Parser as a total
function from the raw text of one RawTextBlock to a Widget.  Missing tokens
degrade to `none`/`Unknown`; a text with zero parsed fields still yields a
Widget. -/
def parseFields (text : String) : Widget :=
  let nc := classify text
  let v := firstValue text
  let r := firstRange text
  { name := nc.1
    category := nc.2
    current_value := v.map Prod.fst
    unit := match v with | some (_, u) => u | none => none
    min := r.map Prod.fst
    max := r.map Prod.snd
    trend := parseTrend text
    status := .Info }

/-! ## Region detection and overlap resolution -/

/-- A candidate widget bounding box (§3). -/
structure Region where
  x : Nat
  y : Nat
  width : Nat
  height : Nat
  deriving DecidableEq, Repr

/-- Pixel area of a region. -/
def Region.area (r : Region) : Nat := r.width * r.height

/-- Default minimum widget area (backend README: `min_area = 3000`). -/
def minAreaDefault : Nat := 3000

/-- Modelled from the spec (§4.1): the minimum-area filter of the missing
`multi_widget_detector.py` region detector — candidate regions below the
configured minimum area are discarded as noise; if none survive the result
is the empty list, not an error. -/
def filterMinArea (minArea : Nat) (candidates : List Region) : List Region :=
  candidates.filter (fun r => decide (minArea ≤ r.area))

/-- Length of the overlap of two half-open intervals `[a₁, a₁+l₁)`,
`[a₂, a₂+l₂)` (Nat subtraction truncates at zero). -/
def interLen (a1 l1 a2 l2 : Nat) : Nat :=
  min (a1 + l1) (a2 + l2) - max a1 a2

/-- Intersection area of two regions. -/
def interArea (r1 r2 : Region) : Nat :=
  interLen r1.x r1.width r2.x r2.width * interLen r1.y r1.height r2.y r2.height

/-- Union area of two regions. -/
def unionArea (r1 r2 : Region) : Nat :=
  r1.area + r2.area - interArea r1 r2

/-- `IoU(r1, r2) ≥ thrNum / thrDen`, decided by cross-multiplication so that
no rational division is needed; a degenerate pair with empty union has IoU
treated as 0.  The default threshold 0.5 is `thrNum = 1, thrDen = 2`. -/
def iouGe (thrNum thrDen : Nat) (r1 r2 : Region) : Bool :=
  decide (0 < unionArea r1 r2) &&
    decide (thrNum * unionArea r1 r2 ≤ thrDen * interArea r1 r2)

/-- A detected widget: its source region, the RawTextBlock extraction
confidence (pytesseract scale, 0–100) and the parsed Widget. -/
structure DetWidget where
  region : Region
  conf : Nat
  widget : Widget
  deriving DecidableEq, Repr

/-- Modelled from the spec (§4.5) tie-break policy: keep the widget with the
higher extraction confidence; at equal confidence keep the one with the
larger area. -/
def keepBetter (a b : DetWidget) : DetWidget :=
  if a.conf < b.conf then b
  else if b.conf < a.conf then a
  else if a.region.area < b.region.area then b
  else a

/-- One step of the greedy overlap resolution: the incoming widget `w` is
merged eagerly with every already-kept widget whose IoU with it reaches the
threshold; the duplicates collapse to the tie-break winner. -/
def resolveStep (thrNum thrDen : Nat) (kept : List DetWidget) (w : DetWidget) :
    List DetWidget :=
  let over := kept.filter (fun k => iouGe thrNum thrDen k.region w.region)
  if over = [] then kept ++ [w]
  else
    kept.filter (fun k => !iouGe thrNum thrDen k.region w.region) ++
      [over.foldl keepBetter w]

/-- Tail of the greedy resolution: folds the pending widgets into the kept
list, in detection order. -/
def resolveAux (thrNum thrDen : Nat) : List DetWidget → List DetWidget → List DetWidget
  | kept, [] => kept
  | kept, w :: rest => resolveAux thrNum thrDen (resolveStep thrNum thrDen kept w) rest

/-- Modelled from the spec (§4.5): the Overlap Resolver of the missing
`multi_widget_detector.py` — greedy duplicate merging over the detected
widget list. -/
def resolveOverlaps (thrNum thrDen : Nat) (ws : List DetWidget) : List DetWidget :=
  resolveAux thrNum thrDen [] ws

/-! ## Analysis engine -/

/-- Modelled from the spec (§4.6): the performance score is clamped into
`[0, 10]`. -/
def clampScore (x : ℚ) : ℚ := max 0 (min 10 x)

/-- The structured analysis object (§3). -/
structure AnalysisResult where
  performance_score : ℚ
  issues : List String
  recommendations_immediate : List String
  recommendations_short_term : List String
  recommendations_long_term : List String
  deriving DecidableEq, Repr

/-- Exact rational value of a parsed decimal magnitude. -/
def numberValToRat (n : NumberVal) : ℚ :=
  (n.mantissa : ℚ) / ((10 : ℚ) ^ n.decimals)

/-- Modelled from the spec (§4.6): the raw performance score recovered from
the model's textual response — its first numeric token, 0 when absent. -/
def rawScoreOf (text : String) : ℚ :=
  match firstValue text with
  | some p => numberValToRat p.1
  | none => 0

/-- Modelled from the spec (§4.6): mapping of a successful model response
into an `AnalysisResult`; the score is clamped into `[0, 10]` even if the
model returned an out-of-range value. -/
def parseAnalysis (text : String) : AnalysisResult :=
  { performance_score := clampScore (rawScoreOf text)
    issues := []
    recommendations_immediate := []
    recommendations_short_term := []
    recommendations_long_term := [] }

/-- Outcome of the external language-model call: success with the response
text, or one of the failure modes named by the spec (§7). -/
inductive ModelResponse where
  | success : String → ModelResponse
  | timeout : ModelResponse
  | malformed : ModelResponse
  | quotaExceeded : ModelResponse
  deriving DecidableEq, Repr

/-- The failure reason recorded in logs/metadata for a failed model call. -/
def failureReasonOf : ModelResponse → Option String
  | .success _ => none
  | .timeout => some "LLM call timed out"
  | .malformed => some "LLM response malformed or incomplete"
  | .quotaExceeded => some "LLM quota exceeded"

/-- One request's response payload: widget data, optional analysis, the
recorded failure reason, and whether the request as a whole succeeded at the
HTTP level. -/
structure AnalysisOutcome where
  widgets : List Widget
  analysis : Option AnalysisResult
  failureReason : Option String
  requestSucceeded : Bool
  deriving DecidableEq, Repr

/-- Modelled from the spec (§4.6, §7): the Analysis Engine of the missing
`llm_analysis.py`.  A failed model call degrades locally: the request still
succeeds, widget data is intact, `analysis` is `none` and the failure reason
is recorded. -/
def runAnalysis (widgets : List Widget) (resp : ModelResponse) : AnalysisOutcome :=
  match resp with
  | .success text =>
    { widgets := widgets
      analysis := some (parseAnalysis text)
      failureReason := none
      requestSucceeded := true }
  | r =>
    { widgets := widgets
      analysis := none
      failureReason := failureReasonOf r
      requestSucceeded := true }

/-! ## Theorems about the pipeline -/

/-- Every keyword of the rule table is non-empty. -/
theorem categoryRules_keywords_nonempty :
    ∀ rule ∈ categoryRules, ∀ kw ∈ rule.1, kw ≠ [] := by decide

/-- Every rule-table category belongs to the closed category set. -/
theorem categoryRules_categories_closed :
    ∀ rule ∈ categoryRules, rule.2 ∈ closedCategorySet := by decide

/-- C3: The Field Parser degrades gracefully on arbitrary text: it is a
total function into `Widget` (so a widget is emitted even with zero parsed
fields), an input without a value token yields `current_value = none`, one
without a range token yields `min = max = none`, and one matching no trend
word yields `trend = Unknown`. -/
theorem field_parser_graceful (text : String) :
    ((∀ t ∈ tokenize text, parseValueToken t = none) →
      (parseFields text).current_value = none ∧ (parseFields text).unit = none) ∧
    ((∀ t ∈ tokenize text, parseRangeToken t = none) →
      (parseFields text).min = none ∧ (parseFields text).max = none) ∧
    ((∀ p ∈ trendVocab, containsSub p.1 (lowerStr text) = false) →
      (parseFields text).trend = .Unknown) := by
  refine ⟨fun h => ?_, fun h => ?_, fun h => ?_⟩
  · have hv : firstValue text = none := List.findSome?_eq_none_iff.mpr h
    simp [parseFields, hv]
  · have hr : firstRange text = none := List.findSome?_eq_none_iff.mpr h
    simp [parseFields, hr]
  · have ht : trendVocab.find? (fun p => containsSub p.1 (lowerStr text)) = none := by
      rw [List.find?_eq_none]
      intro p hp
      simp [h p hp]
    simp [parseFields, parseTrend, ht]

/-- Witness for C3: a purely alphabetic text yields the all-default widget
fields. -/
theorem field_parser_graceful_witness :
    (parseFields "hello world").current_value = none ∧
    (parseFields "hello world").min = none ∧
    (parseFields "hello world").max = none ∧
    (parseFields "hello world").trend = .Unknown :=
  ⟨((field_parser_graceful "hello world").1 (by decide)).1,
   ((field_parser_graceful "hello world").2.1 (by decide)).1,
   ((field_parser_graceful "hello world").2.1 (by decide)).2,
   (field_parser_graceful "hello world").2.2 (by decide)⟩

/-- C8: Every widget the pipeline produces has a non-empty name and a
category from the fixed closed set, and a text matching no rule of the
ordered table classifies as `("Unknown Widget", "System")`. -/
theorem classifier_closed_categories (text : String) :
    (parseFields text).name ≠ "" ∧
    (parseFields text).category ∈ closedCategorySet ∧
    ((∀ rule ∈ categoryRules, ruleMatches text rule = false) →
      classify text = ("Unknown Widget", "System")) := by
  have hname : (parseFields text).name = (classify text).1 := by simp [parseFields]
  have hcat : (parseFields text).category = (classify text).2 := by simp [parseFields]
  rcases hf : categoryRules.find? (ruleMatches text) with _ | rule
  · refine ⟨?_, ?_, fun _ => ?_⟩
    · rw [hname]; simp [classify, hf]
    · rw [hcat]; simp [classify, hf, closedCategorySet]
    · simp [classify, hf]
  · have hmem : rule ∈ categoryRules := List.mem_of_find?_eq_some hf
    have hmatch : ruleMatches text rule = true := List.find?_some hf
    obtain ⟨kw, hkw, hsub⟩ := List.any_eq_true.mp hmatch
    refine ⟨?_, ?_, fun hnone => ?_⟩
    · rw [hname]; simp only [classify, hf]
      intro he
      subst he
      have hkwne : kw ≠ [] := categoryRules_keywords_nonempty rule hmem kw hkw
      rcases kw with _ | ⟨c, cs⟩
      · exact hkwne rfl
      · simp [lowerStr, containsSub, isPrefixL] at hsub
    · rw [hcat]; simp only [classify, hf]
      exact categoryRules_categories_closed rule hmem
    · exact absurd hmatch (by simp [hnone rule hmem])

/-- Witness for C8: a concrete text matching no rule gets the default name
and category. -/
theorem classifier_closed_categories_witness :
    classify "xyz 123" = ("Unknown Widget", "System") :=
  (classifier_closed_categories "xyz 123").2.2 (by decide)

/-- C5: No region emitted by the minimum-area filter has area strictly below
the configured minimum, and when no candidate reaches the threshold the
result is the empty list, not an error. -/
theorem min_area_filter_sound (minArea : Nat) (candidates : List Region) :
    (∀ r ∈ filterMinArea minArea candidates, ¬ r.area < minArea) ∧
    ((∀ r ∈ candidates, r.area < minArea) → filterMinArea minArea candidates = []) := by
  constructor
  · intro r hr
    have := List.of_mem_filter hr
    simp at this
    omega
  · intro h
    refine List.filter_eq_nil_iff.mpr fun r hr => ?_
    have := h r hr
    simp
    omega

/-- Witness for C5 with the default 3000 px² minimum: two small candidate
regions are both discarded, yielding the empty list. -/
theorem min_area_filter_sound_witness :
    filterMinArea minAreaDefault
      [⟨0, 0, 10, 10⟩, ⟨0, 0, 50, 20⟩] = [] :=
  (min_area_filter_sound minAreaDefault [⟨0, 0, 10, 10⟩, ⟨0, 0, 50, 20⟩]).2 (by decide)

/-- C4: When the model call fails in any of its failure modes, the request
still completes successfully with the widget data intact, `analysis = none`,
and a recorded failure reason. -/
theorem model_failure_degrades_gracefully (widgets : List Widget) (resp : ModelResponse)
    (h : ∀ text, resp ≠ .success text) :
    (runAnalysis widgets resp).widgets = widgets ∧
    (runAnalysis widgets resp).analysis = none ∧
    (runAnalysis widgets resp).failureReason.isSome = true ∧
    (runAnalysis widgets resp).requestSucceeded = true := by
  rcases resp with text | _ | _ | _
  · exact absurd rfl (h text)
  all_goals simp [runAnalysis, failureReasonOf]

/-- Witness for C4 at a timed-out model call (end-to-end scenario 5). -/
theorem model_failure_degrades_gracefully_witness :
    (runAnalysis [] .timeout).widgets = [] ∧
    (runAnalysis [] .timeout).analysis = none ∧
    (runAnalysis [] .timeout).failureReason.isSome = true ∧
    (runAnalysis [] .timeout).requestSucceeded = true :=
  model_failure_degrades_gracefully [] .timeout (fun _ h => ModelResponse.noConfusion h)

/-- C9: The stored performance score always lies in `[0, 10]`; an
out-of-range raw value from the model is clamped to the nearer bound and an
in-range value is stored as-is. -/
theorem performance_score_clamped (text : String) (raw : ℚ) :
    (0 ≤ (parseAnalysis text).performance_score ∧
      (parseAnalysis text).performance_score ≤ 10) ∧
    (10 < raw → clampScore raw = 10) ∧
    (raw < 0 → clampScore raw = 0) ∧
    (0 ≤ raw → raw ≤ 10 → clampScore raw = raw) := by
  refine ⟨⟨le_max_left 0 _, ?_⟩, fun h => ?_, fun h => ?_, fun h1 h2 => ?_⟩
  · exact max_le (by norm_num) (min_le_left _ _)
  · rw [clampScore, min_eq_left h.le, max_eq_right (by norm_num)]
  · rw [clampScore, min_eq_right (h.le.trans (by norm_num)), max_eq_left h.le]
  · rw [clampScore, min_eq_right h2, max_eq_right h1]

/-- Witness for C9: a raw score of 15 is clamped to 10, and the stored score
of a concrete response is non-negative. -/
theorem performance_score_clamped_witness :
    clampScore 15 = 10 ∧
    0 ≤ (parseAnalysis "Performance Score: 15").performance_score :=
  ⟨(performance_score_clamped "Performance Score: 15" 15).2.1 (by decide),
   (performance_score_clamped "Performance Score: 15" 15).1.1⟩

/-! ### Overlap resolver properties -/

/-- Two detected widgets are non-overlapping when their IoU is below the
configured threshold. -/
def NonOverlapping (thrNum thrDen : Nat) (a b : DetWidget) : Prop :=
  iouGe thrNum thrDen a.region b.region = false

instance (thrNum thrDen : Nat) : DecidableRel (NonOverlapping thrNum thrDen) :=
  fun _ _ => inferInstanceAs (Decidable (_ = false))

theorem interLen_comm (a1 l1 a2 l2 : Nat) : interLen a1 l1 a2 l2 = interLen a2 l2 a1 l1 := by
  unfold interLen
  rw [Nat.min_comm, Nat.max_comm]

theorem interArea_comm (r1 r2 : Region) : interArea r1 r2 = interArea r2 r1 := by
  unfold interArea
  rw [interLen_comm, interLen_comm r1.y]

theorem unionArea_comm (r1 r2 : Region) : unionArea r1 r2 = unionArea r2 r1 := by
  unfold unionArea
  rw [interArea_comm, Nat.add_comm]

theorem iouGe_comm (thrNum thrDen : Nat) (r1 r2 : Region) :
    iouGe thrNum thrDen r1 r2 = iouGe thrNum thrDen r2 r1 := by
  unfold iouGe
  rw [interArea_comm, unionArea_comm]

theorem nonOverlapping_symm (thrNum thrDen : Nat) :
    Symmetric (NonOverlapping thrNum thrDen) := by
  intro a b h
  unfold NonOverlapping at h ⊢
  rw [iouGe_comm]
  exact h

/-- `foldl keepBetter` always returns its seed or a list element. -/
theorem foldl_keepBetter_mem :
    ∀ (l : List DetWidget) (init : DetWidget), l.foldl keepBetter init ∈ init :: l := by
  intro l
  induction l with
  | nil => intro init; simp
  | cons c cs ih =>
    intro init
    have hkb : keepBetter init c = init ∨ keepBetter init c = c := by
      unfold keepBetter
      split
      · right; rfl
      split
      · left; rfl
      split
      · right; rfl
      · left; rfl
    rw [List.foldl_cons]
    rcases List.mem_cons.mp (ih (keepBetter init c)) with h | h
    · rw [h]
      rcases hkb with h2 | h2 <;> rw [h2] <;> simp
    · simp [h]

/-- A widget overlapping nothing kept is simply appended. -/
theorem resolveStep_of_no_overlap (thrNum thrDen : Nat) (kept : List DetWidget)
    (w : DetWidget) (h : ∀ k ∈ kept, iouGe thrNum thrDen k.region w.region = false) :
    resolveStep thrNum thrDen kept w = kept ++ [w] := by
  unfold resolveStep
  have hfil : kept.filter (fun k => iouGe thrNum thrDen k.region w.region) = [] :=
    List.filter_eq_nil_iff.mpr (by simpa using h)
  simp [hfil]

/-- On a pairwise non-overlapping input (kept prefix included), the greedy
resolution appends every pending widget unchanged. -/
theorem resolveAux_of_pairwise (thrNum thrDen : Nat) :
    ∀ (ws kept : List DetWidget),
      List.Pairwise (NonOverlapping thrNum thrDen) (kept ++ ws) →
      resolveAux thrNum thrDen kept ws = kept ++ ws := by
  intro ws
  induction ws with
  | nil => intro kept _; simp [resolveAux]
  | cons w rest ih =>
    intro kept h
    obtain ⟨hk, hwr, hcross⟩ := List.pairwise_append.mp h
    have hstep : resolveStep thrNum thrDen kept w = kept ++ [w] :=
      resolveStep_of_no_overlap thrNum thrDen kept w
        (fun k hkmem => hcross k hkmem w (List.mem_cons_self w rest))
    have hre : (kept ++ [w]) ++ rest = kept ++ w :: rest := by simp
    have := ih (kept ++ [w]) (by rw [hre]; exact h)
    rw [resolveAux, hstep, this, hre]

/-- Merging one widget into a pairwise non-overlapping kept list keeps it
pairwise non-overlapping. -/
theorem resolveStep_pairwise (thrNum thrDen : Nat) (kept : List DetWidget) (w : DetWidget)
    (h : List.Pairwise (NonOverlapping thrNum thrDen) kept) :
    List.Pairwise (NonOverlapping thrNum thrDen) (resolveStep thrNum thrDen kept w) := by
  unfold resolveStep
  by_cases hover : kept.filter (fun k => iouGe thrNum thrDen k.region w.region) = []
  · rw [if_pos hover]
    refine List.pairwise_append.mpr ⟨h, List.pairwise_singleton _ _, ?_⟩
    intro x hx y hy
    rw [List.mem_singleton.mp hy]
    have := List.filter_eq_nil_iff.mp hover x hx
    unfold NonOverlapping
    simpa using this
  · rw [if_neg hover]
    refine List.pairwise_append.mpr
      ⟨List.Pairwise.filter _ h, List.pairwise_singleton _ _, ?_⟩
    intro x hx y hy
    rw [List.mem_singleton.mp hy]
    have hmem := foldl_keepBetter_mem
      (kept.filter (fun k => iouGe thrNum thrDen k.region w.region)) w
    obtain ⟨hxk, hxp⟩ := List.mem_filter.mp hx
    rcases List.mem_cons.mp hmem with hbw | hbover
    · rw [hbw]
      unfold NonOverlapping
      simpa using hxp
    · obtain ⟨hyk, hyp⟩ := List.mem_filter.mp hbover
      have hne : x ≠ List.foldl keepBetter w
          (kept.filter (fun k => iouGe thrNum thrDen k.region w.region)) := by
        intro he
        rw [← he] at hyp
        simp at hxp
        rw [hxp] at hyp
        exact Bool.false_ne_true hyp
      exact h.forall (nonOverlapping_symm thrNum thrDen) hxk hyk hne

/-- The greedy resolution always produces a pairwise non-overlapping list. -/
theorem resolveAux_pairwise (thrNum thrDen : Nat) :
    ∀ (ws kept : List DetWidget),
      List.Pairwise (NonOverlapping thrNum thrDen) kept →
      List.Pairwise (NonOverlapping thrNum thrDen) (resolveAux thrNum thrDen kept ws) := by
  intro ws
  induction ws with
  | nil => intro kept h; simpa [resolveAux] using h
  | cons w rest ih =>
    intro kept h
    rw [resolveAux]
    exact ih _ (resolveStep_pairwise thrNum thrDen kept w h)

/-- C7: Resolving an already-resolved widget set (no pair at or above the
IoU threshold) returns it unchanged, and resolving twice equals resolving
once. -/
theorem resolver_idempotent (thrNum thrDen : Nat) (ws : List DetWidget) :
    (List.Pairwise (NonOverlapping thrNum thrDen) ws →
      resolveOverlaps thrNum thrDen ws = ws) ∧
    resolveOverlaps thrNum thrDen (resolveOverlaps thrNum thrDen ws) =
      resolveOverlaps thrNum thrDen ws := by
  have key : ∀ l, List.Pairwise (NonOverlapping thrNum thrDen) l →
      resolveOverlaps thrNum thrDen l = l := by
    intro l hl
    unfold resolveOverlaps
    simpa using resolveAux_of_pairwise thrNum thrDen l [] (by simpa using hl)
  exact ⟨key ws, key _ (resolveAux_pairwise thrNum thrDen ws [] List.Pairwise.nil)⟩

/-- Witness for C7: a concrete pair of far-apart detections is returned
unchanged. -/
theorem resolver_idempotent_witness :
    resolveOverlaps 1 2
      [⟨⟨0, 0, 100, 100⟩, 90, parseFields "cpu load"⟩,
       ⟨⟨500, 500, 100, 100⟩, 40, parseFields "disk io"⟩] =
      [⟨⟨0, 0, 100, 100⟩, 90, parseFields "cpu load"⟩,
       ⟨⟨500, 500, 100, 100⟩, 40, parseFields "disk io"⟩] :=
  (resolver_idempotent 1 2
      [⟨⟨0, 0, 100, 100⟩, 90, parseFields "cpu load"⟩,
       ⟨⟨500, 500, 100, 100⟩, 40, parseFields "disk io"⟩]).1 (by decide)

/-- C6: Of two detections whose IoU reaches the threshold, exactly one
survives resolution: the one with the higher extraction confidence, and at
equal confidence the one with the larger area. -/
theorem overlap_pair_exactly_one (thrNum thrDen : Nat) (a b : DetWidget)
    (h : iouGe thrNum thrDen a.region b.region = true) :
    (resolveOverlaps thrNum thrDen [a, b] = [a] ∨
      resolveOverlaps thrNum thrDen [a, b] = [b]) ∧
    (b.conf < a.conf → resolveOverlaps thrNum thrDen [a, b] = [a]) ∧
    (a.conf < b.conf → resolveOverlaps thrNum thrDen [a, b] = [b]) ∧
    (a.conf = b.conf → b.region.area < a.region.area →
      resolveOverlaps thrNum thrDen [a, b] = [a]) ∧
    (a.conf = b.conf → a.region.area < b.region.area →
      resolveOverlaps thrNum thrDen [a, b] = [b]) := by
  have hres : resolveOverlaps thrNum thrDen [a, b] = [keepBetter b a] := by
    simp [resolveOverlaps, resolveAux, resolveStep, h]
  refine ⟨?_, fun hba => ?_, fun hab => ?_, fun hconf harea => ?_, fun hconf harea => ?_⟩
  · rw [hres]
    unfold keepBetter
    split_ifs <;> simp
  · rw [hres]
    simp [keepBetter, hba]
  · rw [hres]
    simp [keepBetter, hab, Nat.lt_asymm hab]
  · rw [hres]
    simp [keepBetter, hconf, harea]
  · rw [hres]
    simp [keepBetter, hconf, Nat.lt_asymm harea]

/-- Witness for C6 (end-to-end scenario 3): two regions with IoU ≈ 0.82 and
confidences 90 vs 40 — only the 90-confidence widget survives. -/
theorem overlap_pair_exactly_one_witness :
    resolveOverlaps 1 2
      [⟨⟨0, 0, 100, 100⟩, 90, parseFields "cpu load"⟩,
       ⟨⟨10, 0, 100, 100⟩, 40, parseFields "cpu usage"⟩] =
      [⟨⟨0, 0, 100, 100⟩, 90, parseFields "cpu load"⟩] :=
  (overlap_pair_exactly_one 1 2
      ⟨⟨0, 0, 100, 100⟩, 90, parseFields "cpu load"⟩
      ⟨⟨10, 0, 100, 100⟩, 40, parseFields "cpu usage"⟩ (by decide)).2.1 (by decide)
